import Mathlib

/-!
Verification of the Binance listing monitor Durable Object
(`BinanceMonitorDO` in src/binance-monitor.ts).

Shallow embedding notes:
- Announcement ids are modelled as `Int` (JS numbers used as integer ids).
- The feed response is modelled by `FetchOutcome`: transport error, non-OK
  HTTP response, JSON parse error, or a parsed body whose optional nesting
  mirrors the optional-chaining access `data?.data?.catalogs || []`.
- Webhook delivery outcomes are an oracle `deliver : Webhook → DeliveryOutcome`
  supplied to the cycle; the per-subscriber task body that can raise is
  `notifyTask` (an `Except`), and its enclosing catch is `notifyTaskCaught`
  (total), matching the try/catch inside the `map` callback of
  `notifyWebhooks`. `Promise.all` is `promiseAll`, which rejects as soon as
  one of its inputs is an error.
- `alarm` is the denotation of one detection cycle: it records the in-memory
  `lastAnnouncementId` field, the persisted storage value, the announcements
  handed to the Notifier (in walk order), the per-announcement delivery logs,
  the arguments of every `setAlarm` call in order, and whether the cycle's
  catch block swallowed an exception. Fault injection: `putThrows` makes
  `storage.put` raise (the only throwing statement reachable inside the try
  block, since `fetchAnnouncements` and the notifier catch their own errors).
  The `finally` block runs on both the normal and the caught path, which is
  why `alarm` is a total function: no exception propagates past it.
-/

namespace BnListNotify

/-- One feed entry, as produced by the Binance announcements API
(type `Announcement` in the source). -/
structure Announcement where
  id : Int
  title : String
  code : String
  publishDate : String
deriving Repr, DecidableEq

/-- A registered webhook subscriber (interface `Webhook` in the source).
`secret` is a JS string; the source tests it for truthiness, so the empty
string behaves as "no secret". -/
structure Webhook where
  secret : String
  url : String
deriving Repr, DecidableEq

/-- The fixed feed base URL (`BINANCE_API`). -/
def BINANCE_API : String :=
  "https://www.binance.com/bapi/composite/v1/public/cms/article/list/query"

/-- The query parameters built by `new URLSearchParams` in
`fetchAnnouncements`. -/
def binanceQueryParams : List (String × String) :=
  [("type", "1"), ("catalogId", "48"), ("pageNo", "1"), ("pageSize", "20")]

/-- Possible outcomes of the outbound feed request, as seen by
`fetchAnnouncements`: the fetch itself rejects; the response is non-OK
(`!response.ok`); `response.json()` fails; or a parsed body, where the outer
`Option` is `data?.data` being nullish and the inner `Option` is
`.catalogs` being nullish. -/
inductive FetchOutcome where
  | transportError
  | httpError
  | parseError
  | body (data : Option (Option (List Announcement)))
deriving Repr

/-- `fetchAnnouncements`: every failure path is caught and returns `[]`;
on success the list under `data.data.catalogs` is returned as-is. -/
def fetchAnnouncements : FetchOutcome → List Announcement
  | .transportError => []
  | .httpError => []
  | .parseError => []
  | .body none => []
  | .body (some none) => []
  | .body (some (some catalogs)) => catalogs

/-- Hex digit used by the percent-encoder (uppercase, as produced by
JS `encodeURIComponent`). -/
def hexDigit (n : Nat) : Char :=
  if n < 10 then Char.ofNat (48 + n) else Char.ofNat (55 + n)

/-- Characters `encodeURIComponent` leaves unescaped:
letters, digits, and `- _ . ! ~ * ( )` and the apostrophe (U+0027). -/
def isUnreservedChar (c : Char) : Bool :=
  (('A' ≤ c && c ≤ 'Z') || ('a' ≤ c && c ≤ 'z') || ('0' ≤ c && c ≤ '9')
    || c = '-' || c = '_' || c = '.' || c = '!' || c = '~' || c = '*'
    || c = Char.ofNat 39 || c = '(' || c = ')')

/-- UTF-8 bytes of one code point. -/
def utf8Bytes (c : Char) : List Nat :=
  let n := c.toNat
  if n < 128 then [n]
  else if n < 2048 then [192 + n / 64, 128 + n % 64]
  else if n < 65536 then [224 + n / 4096, 128 + (n / 64) % 64, 128 + n % 64]
  else [240 + n / 262144, 128 + (n / 4096) % 64, 128 + (n / 64) % 64, 128 + n % 64]

/-- Percent-encoding of one byte. -/
def percentByte (b : Nat) : List Char :=
  ['%', hexDigit (b / 16), hexDigit (b % 16)]

/-- JS `encodeURIComponent`. -/
def encodeURIComponent (s : String) : String :=
  String.mk ((s.toList.map fun c =>
    if isUnreservedChar c then [c] else ((utf8Bytes c).map percentByte).flatten).flatten)

/-- `getAnnouncementUrl`: canonical public announcement URL built from the
percent-encoded title and the extracted code. -/
def getAnnouncementUrl (title code : String) : String :=
  "https://www.binance.com/zh-CN/support/announcement/"
    ++ encodeURIComponent title ++ "-" ++ code

/-- `extractAnnouncementCode`: the regex `([^\/]+)$` keeps the final run of
non-slash characters; no match (empty run) yields `""`. -/
def extractAnnouncementCode (url : String) : String :=
  String.mk (((url.toList.reverse).takeWhile (fun c => c ≠ '/')).reverse)

/-- JS `String.prototype.includes`: `pat` occurs as a contiguous substring
of `s`. -/
def strIncludes (s pat : String) : Bool :=
  (List.range (s.toList.length + 1)).any fun i => pat.toList.isPrefixOf (s.toList.drop i)

/-- The listing-announcement marker tested by the alarm walk. -/
def listingMarker : String := "Binance Will List"

/-- Outcome of one webhook POST: 2xx response, non-OK response (with its
status text), or a transport-level rejection. -/
inductive DeliveryOutcome where
  | ok
  | httpFail (statusText : String)
  | transportError
deriving Repr, DecidableEq

/-- The JSON payload body built by `notifyWebhooks`. -/
structure NotifyPayload where
  timestamp : String
  title : String
  code : String
  url : String
  publishDate : String
deriving Repr, DecidableEq

/-- Payload construction in `notifyWebhooks` (`new Date().toISOString()`
is passed in as `nowIso`). -/
def buildPayload (a : Announcement) (nowIso : String) : NotifyPayload :=
  { timestamp := nowIso
    title := a.title
    code := a.code
    url := getAnnouncementUrl a.title (extractAnnouncementCode a.code)
    publishDate := a.publishDate }

/-- Headers of one webhook POST: always `Content-Type`, plus the secret
header when the subscriber's secret is truthy (non-empty). -/
def webhookHeaders (w : Webhook) : List (String × String) :=
  if w.secret ≠ "" then
    [("Content-Type", "application/json"), ("X-Webhook-Secret", w.secret)]
  else
    [("Content-Type", "application/json")]

/-- Observable record of one per-subscriber delivery attempt. -/
structure DeliveryLog where
  webhook : Webhook
  headers : List (String × String)
  payload : NotifyPayload
  outcome : DeliveryOutcome
  loggedError : Option String
deriving Repr, DecidableEq

/-- The body of the per-subscriber async task in `notifyWebhooks`, before
its catch: a non-OK response throws
`Webhook notification failed: ...`, a transport failure rejects. -/
def notifyTask (a : Announcement) (nowIso : String)
    (deliver : Webhook → DeliveryOutcome) (w : Webhook) : Except String DeliveryLog :=
  let payload := buildPayload a nowIso
  let headers := webhookHeaders w
  match deliver w with
  | .ok =>
    .ok { webhook := w, headers := headers, payload := payload
          outcome := .ok, loggedError := none }
  | .httpFail st => .error ("Webhook notification failed: " ++ st)
  | .transportError => .error "transport error"

/-- The same task with its enclosing catch: every error is logged
(`Failed to notify webhook ...`) and the task resolves regardless. -/
def notifyTaskCaught (a : Announcement) (nowIso : String)
    (deliver : Webhook → DeliveryOutcome) (w : Webhook) : DeliveryLog :=
  match notifyTask a nowIso deliver w with
  | .ok log => log
  | .error e =>
    { webhook := w, headers := webhookHeaders w, payload := buildPayload a nowIso
      outcome := deliver w
      loggedError := some ("Failed to notify webhook " ++ w.url ++ ": " ++ e) }

/-- `Promise.all`: rejects as soon as one input promise is rejected,
otherwise resolves with the list of results. -/
def promiseAll {α : Type} : List (Except String α) → Except String (List α)
  | [] => .ok []
  | t :: ts =>
    match t with
    | .error e => .error e
    | .ok v =>
      match promiseAll ts with
      | .error e => .error e
      | .ok vs => .ok (v :: vs)

/-- `notifyWebhooks`: maps every registered webhook to its delivery task
(each task catches its own errors, hence each mapped promise resolves) and
awaits them all. -/
def notifyWebhooks (webhooks : List Webhook) (a : Announcement) (nowIso : String)
    (deliver : Webhook → DeliveryOutcome) : Except String (List DeliveryLog) :=
  promiseAll (webhooks.map fun w => Except.ok (notifyTaskCaught a nowIso deliver w))

/-- The resolved value of `notifyWebhooks`: one delivery log per subscriber,
in registration order. -/
def dispatchLogs (webhooks : List Webhook) (a : Announcement) (nowIso : String)
    (deliver : Webhook → DeliveryOutcome) : List DeliveryLog :=
  webhooks.map (notifyTaskCaught a nowIso deliver)

/-- The in-memory fields of `BinanceMonitorDO` relevant to the cycle. -/
structure MonitorState where
  webhooks : List Webhook
  watchList : List String
  lastAnnouncementId : Option Int
  isMonitoring : Bool
deriving Repr, DecidableEq

/-- The raw persisted record read back in the constructor
(`storage.get([...])`); `none` is an absent key. -/
structure StoredState where
  webhooks : Option (List Webhook)
  lastAnnouncementId : Option Int
  isMonitoring : Option Bool
  watchList : Option (List String)
deriving Repr

/-- JS coercion `(stored as number) || null` on the last-seen id: an absent
key stays `null`, and the falsy number `0` is coerced to `null` too. -/
def jsNumberOrNull : Option Int → Option Int
  | none => none
  | some n => if n = 0 then none else some n

/-- State restoration in the constructor's `blockConcurrencyWhile` callback. -/
def restoreState (stored : StoredState) : MonitorState :=
  { webhooks := stored.webhooks.getD []
    lastAnnouncementId := jsNumberOrNull stored.lastAnnouncementId
    isMonitoring := stored.isMonitoring.getD false
    watchList := stored.watchList.getD [] }

/-- Everything one `alarm()` invocation observably does. -/
structure CycleResult where
  lastAnnouncementId : Option Int
  storedLastId : Option Int
  notified : List Announcement
  deliveries : List (List DeliveryLog)
  alarmCalls : List Int
  caughtError : Bool
deriving Repr, DecidableEq

/-- The `for ... of announcements` walk in `alarm`: stop at the first entry
whose id equals the stored marker, notify every earlier entry whose title
contains the listing marker. Returns the entries handed to the Notifier,
in walk order. -/
def walkNotify (lastSeenId : Int) : List Announcement → List Announcement
  | [] => []
  | a :: rest =>
    if a.id = lastSeenId then []
    else if strIncludes a.title listingMarker then a :: walkNotify lastSeenId rest
    else walkNotify lastSeenId rest

/-- One detection cycle (`alarm`). Inputs: the in-memory state, the value
currently persisted under `lastAnnouncementId` (`storedBefore`), the feed
request outcome, the delivery oracle, the wall-clock ISO timestamp for
payloads, the `putThrows` fault (does `storage.put` raise?), the current
time and the polling interval.

Control flow mirrors the source: the empty-snapshot branch re-arms inside
the try block and returns early — but the `finally` block still runs, so
that branch arms the alarm twice. In the two mutating branches the
in-memory assignment happens before `storage.put`, so a throwing put leaves
the field updated and the persisted value stale; the exception is caught
and the `finally` re-arm still happens. -/
def alarm (st : MonitorState) (storedBefore : Option Int) (fetched : FetchOutcome)
    (deliver : Webhook → DeliveryOutcome) (nowIso : String)
    (putThrows : Bool) (now pollingInterval : Int) : CycleResult :=
  let finallyCalls : List Int := if st.isMonitoring then [now + pollingInterval] else []
  match fetchAnnouncements fetched with
  | [] =>
    { lastAnnouncementId := st.lastAnnouncementId
      storedLastId := storedBefore
      notified := []
      deliveries := []
      alarmCalls := (if st.isMonitoring then [now + pollingInterval] else []) ++ finallyCalls
      caughtError := false }
  | latest :: rest =>
    let latestId := latest.id
    match st.lastAnnouncementId with
    | none =>
      { lastAnnouncementId := some latestId
        storedLastId := if putThrows then storedBefore else some latestId
        notified := []
        deliveries := []
        alarmCalls := finallyCalls
        caughtError := putThrows }
    | some lastSeenId =>
      if latestId = lastSeenId then
        { lastAnnouncementId := some lastSeenId
          storedLastId := storedBefore
          notified := []
          deliveries := []
          alarmCalls := finallyCalls
          caughtError := false }
      else
        let toNotify := walkNotify lastSeenId (latest :: rest)
        { lastAnnouncementId := some latestId
          storedLastId := if putThrows then storedBefore else some latestId
          notified := toNotify
          deliveries := toNotify.map fun a => dispatchLogs st.webhooks a nowIso deliver
          alarmCalls := finallyCalls
          caughtError := putThrows }

/-- Spec-side reading of "entries strictly newer than the marker, in walk
order": the prefix of the snapshot before the first occurrence of the
marker id. -/
def newerThanMarker (lastSeenId : Int) (l : List Announcement) : List Announcement :=
  l.takeWhile fun a => a.id ≠ lastSeenId

/-- Spec-side reading of "qualifying entries": those whose title contains
the listing marker. -/
def qualifying (l : List Announcement) : List Announcement :=
  l.filter fun a => strIncludes a.title listingMarker

/-- Concrete snapshot from the spec's test scenario. -/
def sampleSnapshot : List Announcement :=
  [{ id := 5, title := "Binance Will List ABC", code := "abc", publishDate := "2024-01-03" },
   { id := 4, title := "Market Update", code := "mu", publishDate := "2024-01-02" },
   { id := 3, title := "Binance Will List XYZ", code := "xyz", publishDate := "2024-01-01" }]

/-- A successful feed response carrying `sampleSnapshot`. -/
def sampleFetch : FetchOutcome := .body (some (some sampleSnapshot))

/-- A monitoring state with one subscriber and marker 3. -/
def sampleState : MonitorState :=
  { webhooks := [{ secret := "s", url := "https://example.com/hook" }]
    watchList := []
    lastAnnouncementId := some 3
    isMonitoring := true }

/-- A persisted record whose last-seen id is the falsy number 0. -/
def storedZero : StoredState :=
  { webhooks := none, lastAnnouncementId := some 0
    isMonitoring := some true, watchList := none }

/-- A persisted record whose last-seen id is 7. -/
def storedSeven : StoredState :=
  { webhooks := none, lastAnnouncementId := some 7
    isMonitoring := some true, watchList := none }

/-! ### Helper lemmas -/

theorem walkNotify_eq (lastSeenId : Int) (l : List Announcement) :
    walkNotify lastSeenId l = qualifying (newerThanMarker lastSeenId l) := by
  induction l with
  | nil => rfl
  | cons a rest ih =>
    by_cases h : a.id = lastSeenId
    · simp [walkNotify, newerThanMarker, qualifying, List.takeWhile_cons, h]
    · by_cases hm : strIncludes a.title listingMarker = true
      · simp [walkNotify, newerThanMarker, qualifying, List.takeWhile_cons, List.filter_cons,
          h, hm] at ih ⊢
        exact ih
      · simp [walkNotify, newerThanMarker, qualifying, List.takeWhile_cons, List.filter_cons,
          h, hm] at ih ⊢
        exact ih

theorem walkNotify_of_not_mem (lastSeenId : Int) (l : List Announcement)
    (h : lastSeenId ∉ l.map Announcement.id) :
    walkNotify lastSeenId l = qualifying l := by
  rw [walkNotify_eq]
  have hall : ∀ x ∈ l, ¬x.id = lastSeenId := fun x hx hc =>
    h (hc ▸ List.mem_map_of_mem Announcement.id hx)
  unfold newerThanMarker
  rw [List.takeWhile_eq_self_iff.mpr (by simpa using hall)]

theorem notifyTaskCaught_webhook (a : Announcement) (nowIso : String)
    (deliver : Webhook → DeliveryOutcome) (w : Webhook) :
    (notifyTaskCaught a nowIso deliver w).webhook = w := by
  unfold notifyTaskCaught notifyTask
  cases deliver w <;> rfl

theorem notifyWebhooks_ok (webhooks : List Webhook) (a : Announcement) (nowIso : String)
    (deliver : Webhook → DeliveryOutcome) :
    notifyWebhooks webhooks a nowIso deliver =
      Except.ok (dispatchLogs webhooks a nowIso deliver) := by
  unfold notifyWebhooks dispatchLogs
  induction webhooks with
  | nil => rfl
  | cons w rest ih =>
    simp only [List.map_cons, promiseAll, ih]

theorem alarm_alarmCalls_shape (st : MonitorState) (storedBefore : Option Int)
    (fetched : FetchOutcome) (deliver : Webhook → DeliveryOutcome) (nowIso : String)
    (putThrows : Bool) (now pollingInterval : Int) :
    (alarm st storedBefore fetched deliver nowIso putThrows now pollingInterval).alarmCalls =
      if st.isMonitoring then
        if fetchAnnouncements fetched = [] then
          [now + pollingInterval, now + pollingInterval]
        else [now + pollingInterval]
      else [] := by
  unfold alarm
  cases fetchAnnouncements fetched with
  | nil => cases st.isMonitoring <;> simp
  | cons latest rest =>
    cases st.lastAnnouncementId with
    | none => cases st.isMonitoring <;> simp
    | some lastSeenId =>
      by_cases hEq : latest.id = lastSeenId <;> cases st.isMonitoring <;> simp [hEq]

/-! ### Claim theorems -/

/-- C1: for every snapshot in which the stored lastSeenId occurs, one
detection cycle invokes the Notifier exactly for the entries that precede
the first occurrence of lastSeenId in walk order (newest to oldest) and
whose title contains the listing marker "Binance Will List", and for no
other entries. -/
theorem alarm_notifies_exactly_new_listings
    (st : MonitorState) (storedBefore : Option Int) (fetched : FetchOutcome)
    (deliver : Webhook → DeliveryOutcome) (nowIso : String) (putThrows : Bool)
    (now pollingInterval : Int) (lastSeenId : Int)
    (hlast : st.lastAnnouncementId = some lastSeenId)
    (hmem : lastSeenId ∈ (fetchAnnouncements fetched).map Announcement.id) :
    (alarm st storedBefore fetched deliver nowIso putThrows now pollingInterval).notified =
      qualifying (newerThanMarker lastSeenId (fetchAnnouncements fetched)) := by
  cases hS : fetchAnnouncements fetched with
  | nil => rw [hS] at hmem; simp at hmem
  | cons latest rest =>
    by_cases hEq : latest.id = lastSeenId
    · simp [alarm, hS, hlast, hEq, qualifying, newerThanMarker, List.takeWhile_cons]
    · simp [alarm, hS, hlast, hEq, walkNotify_eq]

/-- Witness for `alarm_notifies_exactly_new_listings` at the spec's
concrete scenario (marker 3, snapshot ids 5, 4, 3). -/
theorem alarm_notifies_exactly_new_listings_witness :
    sampleState.lastAnnouncementId = some 3 ∧
    3 ∈ (fetchAnnouncements sampleFetch).map Announcement.id ∧
    (alarm sampleState (some 3) sampleFetch (fun _ => DeliveryOutcome.ok)
        "ts" false 0 3000).notified =
      qualifying (newerThanMarker 3 (fetchAnnouncements sampleFetch)) :=
  ⟨rfl, by decide,
    alarm_notifies_exactly_new_listings sampleState (some 3) sampleFetch
      (fun _ => DeliveryOutcome.ok) "ts" false 0 3000 3 rfl (by decide)⟩

/-- C2: whatever branch one cycle takes, and under any injected fault in
the fetch, diff or dispatch stages, the cycle's final setAlarm call is for
now + pollingInterval when the monitoring flag is true, and the cycle makes
no setAlarm call when the flag is false. That `alarm` is a total function
into `CycleResult` reflects the catch/finally structure: no exception
propagates past the cycle boundary. -/
theorem alarm_always_reschedules
    (st : MonitorState) (storedBefore : Option Int) (fetched : FetchOutcome)
    (deliver : Webhook → DeliveryOutcome) (nowIso : String) (putThrows : Bool)
    (now pollingInterval : Int) :
    (st.isMonitoring = true →
      (alarm st storedBefore fetched deliver nowIso putThrows
          now pollingInterval).alarmCalls.getLast? = some (now + pollingInterval)) ∧
    (st.isMonitoring = false →
      (alarm st storedBefore fetched deliver nowIso putThrows
          now pollingInterval).alarmCalls = []) := by
  rw [alarm_alarmCalls_shape]
  constructor <;> intro hm <;> simp [hm]
  by_cases hS : fetchAnnouncements fetched = [] <;> simp [hS]

/-- Witness for `alarm_always_reschedules`: the monitoring-on conjunct at
the sample state, and the monitoring-off conjunct at the stopped state. -/
theorem alarm_always_reschedules_witness :
    ((alarm sampleState (some 3) sampleFetch (fun _ => DeliveryOutcome.ok)
        "ts" false 0 3000).alarmCalls.getLast? = some (0 + 3000)) ∧
    ((alarm { sampleState with isMonitoring := false } (some 3) sampleFetch
        (fun _ => DeliveryOutcome.ok) "ts" false 0 3000).alarmCalls = []) :=
  ⟨(alarm_always_reschedules sampleState (some 3) sampleFetch
      (fun _ => DeliveryOutcome.ok) "ts" false 0 3000).1 rfl,
   (alarm_always_reschedules { sampleState with isMonitoring := false } (some 3) sampleFetch
      (fun _ => DeliveryOutcome.ok) "ts" false 0 3000).2 rfl⟩

/-- C10: with monitoring on, an empty-snapshot cycle calls setAlarm twice
(once in the empty-snapshot branch, once in the finally block), both for
now + pollingInterval; every other cycle shape with monitoring on calls it
exactly once; with monitoring off it is never called. -/
theorem alarm_setAlarm_call_counts
    (st : MonitorState) (storedBefore : Option Int) (fetched : FetchOutcome)
    (deliver : Webhook → DeliveryOutcome) (nowIso : String) (putThrows : Bool)
    (now pollingInterval : Int) :
    (st.isMonitoring = true → fetchAnnouncements fetched = [] →
      (alarm st storedBefore fetched deliver nowIso putThrows now pollingInterval).alarmCalls =
        [now + pollingInterval, now + pollingInterval]) ∧
    (st.isMonitoring = true → fetchAnnouncements fetched ≠ [] →
      (alarm st storedBefore fetched deliver nowIso putThrows now pollingInterval).alarmCalls =
        [now + pollingInterval]) ∧
    (st.isMonitoring = false →
      (alarm st storedBefore fetched deliver nowIso putThrows now pollingInterval).alarmCalls =
        []) := by
  rw [alarm_alarmCalls_shape]
  refine ⟨fun hm hS => by simp [hm, hS], fun hm hS => by simp [hm, hS], fun hm => by simp [hm]⟩

/-- Witness for `alarm_setAlarm_call_counts`: an empty feed body with
monitoring on (two calls), the sample snapshot with monitoring on (one
call), and monitoring off (no call). -/
theorem alarm_setAlarm_call_counts_witness :
    ((alarm sampleState (some 3) (FetchOutcome.body none) (fun _ => DeliveryOutcome.ok)
        "ts" false 0 3000).alarmCalls = [0 + 3000, 0 + 3000]) ∧
    ((alarm sampleState (some 3) sampleFetch (fun _ => DeliveryOutcome.ok)
        "ts" false 0 3000).alarmCalls = [0 + 3000]) ∧
    ((alarm { sampleState with isMonitoring := false } (some 3) sampleFetch
        (fun _ => DeliveryOutcome.ok) "ts" false 0 3000).alarmCalls = []) :=
  ⟨(alarm_setAlarm_call_counts sampleState (some 3) (FetchOutcome.body none)
      (fun _ => DeliveryOutcome.ok) "ts" false 0 3000).1 rfl rfl,
   (alarm_setAlarm_call_counts sampleState (some 3) sampleFetch
      (fun _ => DeliveryOutcome.ok) "ts" false 0 3000).2.1 rfl (by decide),
   (alarm_setAlarm_call_counts { sampleState with isMonitoring := false } (some 3) sampleFetch
      (fun _ => DeliveryOutcome.ok) "ts" false 0 3000).2.2 rfl⟩

/-- C3 counterexample: with the stored marker at 5 and a snapshot whose
newest id is 1, one cycle sets lastSeenId to 1 — strictly below its previous
value — so the unconditional "never moves backwards" claim is false on the
code: the walk branch overwrites the marker with the snapshot head id
whenever the two differ, in either direction. -/
theorem lastSeenId_moves_backwards_counterexample :
    (alarm { webhooks := [], watchList := [], lastAnnouncementId := some 5, isMonitoring := true }
        (some 5)
        (FetchOutcome.body (some (some
          [{ id := 1, title := "Routine Maintenance", code := "m", publishDate := "d" }])))
        (fun _ => DeliveryOutcome.ok) "ts" false 0 3000).lastAnnouncementId = some 1 ∧
      (1 : Int) < 5 := by
  constructor
  · rfl
  · decide

/-- C3 amended: at the end of a cycle lastSeenId, once set, is either left
unchanged or set to the newest observed id of the snapshot; hence it never
moves backwards across a cycle provided the snapshot's newest observed id
is at least the current marker (which the unconditional claim tacitly
assumed of the feed). -/
theorem lastSeenId_monotone_of_head_ge
    (st : MonitorState) (storedBefore : Option Int) (fetched : FetchOutcome)
    (deliver : Webhook → DeliveryOutcome) (nowIso : String) (putThrows : Bool)
    (now pollingInterval : Int) (v : Int)
    (hlast : st.lastAnnouncementId = some v)
    (hhead : ((fetchAnnouncements fetched).head?.all fun a => v ≤ a.id) = true) :
    ∃ w, (alarm st storedBefore fetched deliver nowIso putThrows
        now pollingInterval).lastAnnouncementId = some w ∧ v ≤ w := by
  cases hS : fetchAnnouncements fetched with
  | nil => exact ⟨v, by simp [alarm, hS, hlast], le_refl v⟩
  | cons latest rest =>
    rw [hS] at hhead
    simp only [List.head?_cons, Option.all_some, decide_eq_true_eq] at hhead
    by_cases hEq : latest.id = v
    · exact ⟨v, by simp [alarm, hS, hlast, hEq], le_refl v⟩
    · exact ⟨latest.id, by simp [alarm, hS, hlast, hEq], hhead⟩

/-- Witness for `lastSeenId_monotone_of_head_ge` at the sample scenario
(marker 3, snapshot head id 5). -/
theorem lastSeenId_monotone_of_head_ge_witness :
    ∃ w, (alarm sampleState (some 3) sampleFetch (fun _ => DeliveryOutcome.ok)
        "ts" false 0 3000).lastAnnouncementId = some w ∧ (3 : Int) ≤ w :=
  lastSeenId_monotone_of_head_ge sampleState (some 3) sampleFetch
    (fun _ => DeliveryOutcome.ok) "ts" false 0 3000 3 rfl (by decide)

/-- C4: assuming the persisted marker agrees with the in-memory one at the
start of the cycle and persistence does not fault, after a cycle on a
non-empty snapshot both the in-memory and the persisted lastSeenId equal
the newest entry's id, for every delivery oracle; on an empty snapshot,
under any fault, the state is unchanged and nothing is notified. -/
theorem lastSeenId_tracks_snapshot_head
    (st : MonitorState) (storedBefore : Option Int) (fetched : FetchOutcome)
    (deliver : Webhook → DeliveryOutcome) (nowIso : String)
    (now pollingInterval : Int)
    (hcoh : storedBefore = st.lastAnnouncementId) :
    (∀ a rest, fetchAnnouncements fetched = a :: rest →
      (alarm st storedBefore fetched deliver nowIso false
          now pollingInterval).lastAnnouncementId = some a.id ∧
      (alarm st storedBefore fetched deliver nowIso false
          now pollingInterval).storedLastId = some a.id) ∧
    (fetchAnnouncements fetched = [] → ∀ putThrows,
      (alarm st storedBefore fetched deliver nowIso putThrows
          now pollingInterval).lastAnnouncementId = st.lastAnnouncementId ∧
      (alarm st storedBefore fetched deliver nowIso putThrows
          now pollingInterval).storedLastId = storedBefore ∧
      (alarm st storedBefore fetched deliver nowIso putThrows
          now pollingInterval).notified = []) := by
  constructor
  · intro a rest hS
    cases hl : st.lastAnnouncementId with
    | none => simp [alarm, hS, hl]
    | some v =>
      by_cases hEq : a.id = v
      · rw [hl] at hcoh
        simp [alarm, hS, hl, hEq, hcoh]
      · simp [alarm, hS, hl, hEq]
  · intro hS putThrows
    simp [alarm, hS]

/-- Witness for `lastSeenId_tracks_snapshot_head`: the non-empty conjunct at
the sample snapshot and the empty conjunct at an empty feed body. -/
theorem lastSeenId_tracks_snapshot_head_witness :
    ((alarm sampleState (some 3) sampleFetch (fun _ => DeliveryOutcome.ok)
        "ts" false 0 3000).lastAnnouncementId = some 5 ∧
     (alarm sampleState (some 3) sampleFetch (fun _ => DeliveryOutcome.ok)
        "ts" false 0 3000).storedLastId = some 5) ∧
    ((alarm sampleState (some 3) (FetchOutcome.body none) (fun _ => DeliveryOutcome.ok)
        "ts" true 0 3000).lastAnnouncementId = sampleState.lastAnnouncementId ∧
     (alarm sampleState (some 3) (FetchOutcome.body none) (fun _ => DeliveryOutcome.ok)
        "ts" true 0 3000).storedLastId = some 3 ∧
     (alarm sampleState (some 3) (FetchOutcome.body none) (fun _ => DeliveryOutcome.ok)
        "ts" true 0 3000).notified = []) :=
  ⟨(lastSeenId_tracks_snapshot_head sampleState (some 3) sampleFetch
      (fun _ => DeliveryOutcome.ok) "ts" 0 3000 rfl).1
      { id := 5, title := "Binance Will List ABC", code := "abc", publishDate := "2024-01-03" }
      (sampleSnapshot.drop 1) rfl,
   (lastSeenId_tracks_snapshot_head sampleState (some 3) (FetchOutcome.body none)
      (fun _ => DeliveryOutcome.ok) "ts" 0 3000 rfl).2 rfl true⟩

/-- C5: on a first run (absent lastSeenId) with a non-empty snapshot, the
cycle dispatches nothing, sets lastSeenId to the newest entry's id and
persists it. -/
theorem first_run_baselines_without_notifying
    (st : MonitorState) (storedBefore : Option Int) (fetched : FetchOutcome)
    (deliver : Webhook → DeliveryOutcome) (nowIso : String)
    (now pollingInterval : Int) (a : Announcement) (rest : List Announcement)
    (hnone : st.lastAnnouncementId = none)
    (hS : fetchAnnouncements fetched = a :: rest) :
    (alarm st storedBefore fetched deliver nowIso false
        now pollingInterval).notified = [] ∧
    (alarm st storedBefore fetched deliver nowIso false
        now pollingInterval).deliveries = [] ∧
    (alarm st storedBefore fetched deliver nowIso false
        now pollingInterval).lastAnnouncementId = some a.id ∧
    (alarm st storedBefore fetched deliver nowIso false
        now pollingInterval).storedLastId = some a.id := by
  simp [alarm, hS, hnone]

/-- Witness for `first_run_baselines_without_notifying` at the sample
snapshot with an absent marker. -/
theorem first_run_baselines_without_notifying_witness :
    (alarm { sampleState with lastAnnouncementId := none } none sampleFetch
        (fun _ => DeliveryOutcome.ok) "ts" false 0 3000).notified = [] ∧
    (alarm { sampleState with lastAnnouncementId := none } none sampleFetch
        (fun _ => DeliveryOutcome.ok) "ts" false 0 3000).deliveries = [] ∧
    (alarm { sampleState with lastAnnouncementId := none } none sampleFetch
        (fun _ => DeliveryOutcome.ok) "ts" false 0 3000).lastAnnouncementId = some 5 ∧
    (alarm { sampleState with lastAnnouncementId := none } none sampleFetch
        (fun _ => DeliveryOutcome.ok) "ts" false 0 3000).storedLastId = some 5 :=
  first_run_baselines_without_notifying { sampleState with lastAnnouncementId := none }
    none sampleFetch (fun _ => DeliveryOutcome.ok) "ts" 0 3000
    { id := 5, title := "Binance Will List ABC", code := "abc", publishDate := "2024-01-03" }
    (sampleSnapshot.drop 1) rfl rfl

/-- C6: the Notifier never raises — it resolves with one delivery log per
subscriber, in registration order, so it returns only after every
per-subscriber delivery has finished — and one subscriber's result depends
only on that subscriber's own delivery outcome, so a failure for one
subscriber cannot affect delivery to any other. -/
theorem notifyWebhooks_total_and_isolated
    (webhooks : List Webhook) (a : Announcement) (nowIso : String)
    (deliver : Webhook → DeliveryOutcome) :
    notifyWebhooks webhooks a nowIso deliver =
      Except.ok (dispatchLogs webhooks a nowIso deliver) ∧
    (dispatchLogs webhooks a nowIso deliver).map DeliveryLog.webhook = webhooks ∧
    (∀ deliver2 w, deliver w = deliver2 w →
      notifyTaskCaught a nowIso deliver w = notifyTaskCaught a nowIso deliver2 w) := by
  refine ⟨notifyWebhooks_ok webhooks a nowIso deliver, ?_, ?_⟩
  · unfold dispatchLogs
    rw [List.map_map]
    have hcomp : (DeliveryLog.webhook ∘ notifyTaskCaught a nowIso deliver) = id := by
      funext w
      exact notifyTaskCaught_webhook a nowIso deliver w
    rw [hcomp, List.map_id]
  · intro deliver2 w h
    unfold notifyTaskCaught notifyTask
    rw [h]

/-- Witness for `notifyWebhooks_total_and_isolated` with one failing and one
succeeding subscriber. -/
theorem notifyWebhooks_total_and_isolated_witness :
    (notifyWebhooks
        [{ secret := "", url := "https://a.example" }, { secret := "s", url := "https://b.example" }]
        { id := 5, title := "Binance Will List ABC", code := "abc", publishDate := "2024-01-03" }
        "ts" (fun w => if w.url = "https://a.example" then DeliveryOutcome.transportError
          else DeliveryOutcome.ok) =
      Except.ok (dispatchLogs
        [{ secret := "", url := "https://a.example" }, { secret := "s", url := "https://b.example" }]
        { id := 5, title := "Binance Will List ABC", code := "abc", publishDate := "2024-01-03" }
        "ts" (fun w => if w.url = "https://a.example" then DeliveryOutcome.transportError
          else DeliveryOutcome.ok))) ∧
    ((dispatchLogs
        [{ secret := "", url := "https://a.example" }, { secret := "s", url := "https://b.example" }]
        { id := 5, title := "Binance Will List ABC", code := "abc", publishDate := "2024-01-03" }
        "ts" (fun w => if w.url = "https://a.example" then DeliveryOutcome.transportError
          else DeliveryOutcome.ok)).map DeliveryLog.webhook =
      [{ secret := "", url := "https://a.example" }, { secret := "s", url := "https://b.example" }]) ∧
    (notifyTaskCaught
        { id := 5, title := "Binance Will List ABC", code := "abc", publishDate := "2024-01-03" }
        "ts" (fun w => if w.url = "https://a.example" then DeliveryOutcome.transportError
          else DeliveryOutcome.ok)
        { secret := "s", url := "https://b.example" } =
      notifyTaskCaught
        { id := 5, title := "Binance Will List ABC", code := "abc", publishDate := "2024-01-03" }
        "ts" (fun _ => DeliveryOutcome.ok)
        { secret := "s", url := "https://b.example" }) :=
  ⟨(notifyWebhooks_total_and_isolated
      [{ secret := "", url := "https://a.example" }, { secret := "s", url := "https://b.example" }]
      { id := 5, title := "Binance Will List ABC", code := "abc", publishDate := "2024-01-03" }
      "ts" (fun w => if w.url = "https://a.example" then DeliveryOutcome.transportError
        else DeliveryOutcome.ok)).1,
   (notifyWebhooks_total_and_isolated
      [{ secret := "", url := "https://a.example" }, { secret := "s", url := "https://b.example" }]
      { id := 5, title := "Binance Will List ABC", code := "abc", publishDate := "2024-01-03" }
      "ts" (fun w => if w.url = "https://a.example" then DeliveryOutcome.transportError
        else DeliveryOutcome.ok)).2.1,
   (notifyWebhooks_total_and_isolated
      [{ secret := "", url := "https://a.example" }, { secret := "s", url := "https://b.example" }]
      { id := 5, title := "Binance Will List ABC", code := "abc", publishDate := "2024-01-03" }
      "ts" (fun w => if w.url = "https://a.example" then DeliveryOutcome.transportError
        else DeliveryOutcome.ok)).2.2 (fun _ => DeliveryOutcome.ok)
      { secret := "s", url := "https://b.example" } (by decide)⟩

/-- C7: when the stored marker is present but occurs nowhere in the
snapshot, the walk consumes the whole snapshot, so every entry whose title
contains the listing marker is (re-)notified, and lastSeenId is then set to
the snapshot's newest id. -/
theorem missing_marker_renotifies_whole_page
    (st : MonitorState) (storedBefore : Option Int) (fetched : FetchOutcome)
    (deliver : Webhook → DeliveryOutcome) (nowIso : String) (putThrows : Bool)
    (now pollingInterval : Int) (lastSeenId : Int) (a : Announcement)
    (rest : List Announcement)
    (hlast : st.lastAnnouncementId = some lastSeenId)
    (hS : fetchAnnouncements fetched = a :: rest)
    (hmiss : lastSeenId ∉ (fetchAnnouncements fetched).map Announcement.id) :
    (alarm st storedBefore fetched deliver nowIso putThrows
        now pollingInterval).notified = qualifying (fetchAnnouncements fetched) ∧
    (alarm st storedBefore fetched deliver nowIso putThrows
        now pollingInterval).lastAnnouncementId = some a.id := by
  have hne : a.id ≠ lastSeenId := by
    intro hc
    exact hmiss (hc ▸ List.mem_map_of_mem Announcement.id (by rw [hS]; exact List.mem_cons_self a rest))
  rw [hS] at hmiss ⊢
  constructor
  · have hw := walkNotify_of_not_mem lastSeenId (a :: rest) hmiss
    simp [alarm, hS, hlast, hne, hw]
  · simp [alarm, hS, hlast, hne]

/-- Witness for `missing_marker_renotifies_whole_page`: marker 2 is absent
from the sample snapshot (ids 5, 4, 3), so both listing entries are
notified and the marker jumps to 5. -/
theorem missing_marker_renotifies_whole_page_witness :
    (alarm { sampleState with lastAnnouncementId := some 2 } (some 2) sampleFetch
        (fun _ => DeliveryOutcome.ok) "ts" false 0 3000).notified =
      qualifying (fetchAnnouncements sampleFetch) ∧
    (alarm { sampleState with lastAnnouncementId := some 2 } (some 2) sampleFetch
        (fun _ => DeliveryOutcome.ok) "ts" false 0 3000).lastAnnouncementId = some 5 :=
  missing_marker_renotifies_whole_page { sampleState with lastAnnouncementId := some 2 }
    (some 2) sampleFetch (fun _ => DeliveryOutcome.ok) "ts" false 0 3000 2
    { id := 5, title := "Binance Will List ABC", code := "abc", publishDate := "2024-01-03" }
    (sampleSnapshot.drop 1) rfl rfl (by decide)

/-- C8: every failure outcome of the feed request — transport error, non-OK
response, JSON parse failure, or a body missing the nested list field —
makes fetchAnnouncements return the empty list rather than propagate, while
a well-formed body returns exactly the nested list; the request itself
carries the fixed page size 20. -/
theorem fetchAnnouncements_failures_empty :
    fetchAnnouncements FetchOutcome.transportError = [] ∧
    fetchAnnouncements FetchOutcome.httpError = [] ∧
    fetchAnnouncements FetchOutcome.parseError = [] ∧
    fetchAnnouncements (FetchOutcome.body none) = [] ∧
    fetchAnnouncements (FetchOutcome.body (some none)) = [] ∧
    (∀ catalogs, fetchAnnouncements (FetchOutcome.body (some (some catalogs))) = catalogs) ∧
    ("pageSize", "20") ∈ binanceQueryParams := by
  refine ⟨rfl, rfl, rfl, rfl, rfl, fun catalogs => rfl, by decide⟩

/-- C9: restoring state coerces a persisted last-seen id of 0 to absent (JS
falsiness of 0 under the restore expression), so the next cycle on a
non-empty snapshot re-baselines and notifies nothing, while every non-zero
persisted id is restored exactly. -/
theorem zero_persisted_id_acts_as_first_run
    (stored : StoredState) (storedBefore : Option Int) (fetched : FetchOutcome)
    (deliver : Webhook → DeliveryOutcome) (nowIso : String)
    (now pollingInterval : Int) :
    (stored.lastAnnouncementId = some 0 →
      (restoreState stored).lastAnnouncementId = none) ∧
    (∀ v : Int, v ≠ 0 → stored.lastAnnouncementId = some v →
      (restoreState stored).lastAnnouncementId = some v) ∧
    (stored.lastAnnouncementId = some 0 →
      ∀ a rest, fetchAnnouncements fetched = a :: rest →
        (alarm (restoreState stored) storedBefore fetched deliver nowIso false
            now pollingInterval).notified = [] ∧
        (alarm (restoreState stored) storedBefore fetched deliver nowIso false
            now pollingInterval).lastAnnouncementId = some a.id) := by
  refine ⟨?_, ?_, ?_⟩
  · intro h0
    simp [restoreState, jsNumberOrNull, h0]
  · intro v hv hsv
    simp [restoreState, jsNumberOrNull, hsv, hv]
  · intro h0 a rest hS
    have hnone : (restoreState stored).lastAnnouncementId = none := by
      simp [restoreState, jsNumberOrNull, h0]
    simp [alarm, hS, hnone]

/-- Witness for `zero_persisted_id_acts_as_first_run` with a persisted id of
0 (first and third conjuncts) and of 7 (second conjunct). -/
theorem zero_persisted_id_acts_as_first_run_witness :
    ((restoreState storedZero).lastAnnouncementId = none) ∧
    ((restoreState storedSeven).lastAnnouncementId = some 7) ∧
    ((alarm (restoreState storedZero) none sampleFetch
        (fun _ => DeliveryOutcome.ok) "ts" false 0 3000).notified = [] ∧
     (alarm (restoreState storedZero) none sampleFetch
        (fun _ => DeliveryOutcome.ok) "ts" false 0 3000).lastAnnouncementId = some 5) :=
  ⟨(zero_persisted_id_acts_as_first_run storedZero
      none sampleFetch (fun _ => DeliveryOutcome.ok) "ts" 0 3000).1 rfl,
   (zero_persisted_id_acts_as_first_run storedSeven
      none sampleFetch (fun _ => DeliveryOutcome.ok) "ts" 0 3000).2.1 7 (by decide) rfl,
   (zero_persisted_id_acts_as_first_run storedZero
      none sampleFetch (fun _ => DeliveryOutcome.ok) "ts" 0 3000).2.2 rfl
      { id := 5, title := "Binance Will List ABC", code := "abc", publishDate := "2024-01-03" }
      (sampleSnapshot.drop 1) rfl⟩

end BnListNotify
